import Mathlib

/-!
Verification of the Wallet & Transaction Ledger subsystem of `view_social`.

Shallow embedding conventions:
* `Uuid` values are modelled as `Nat` (opaque identifiers; only equality is used).
* `rust_decimal::Decimal` is modelled as `ℚ` (arbitrary-precision decimal arithmetic;
  the source never relies on overflow or scale limits in the verified paths).
* `DateTime<Utc>` timestamps are modelled as `Nat`; each mutating operation receives
  the current time `now` as an explicit argument (the source calls `Utc::now()`).
* Rust `Result<T>` (with `AppError`) is modelled as `Except AppError T`; an early
  `return Err(..)` leaves the caller's state untouched, which the embedding renders
  by returning the unchanged pre-state alongside the error where state matters.
* Calls into external libraries (`bcrypt::verify`, `bcrypt::hash`,
  `Decimal::from_str`) are modelled as explicit function parameters, since those
  libraries are not part of this repository.
-/

namespace ViewSocial

/-- Error taxonomy from `src/domain/errors.rs` (`enum AppError`). Only the payload-free
summary of each variant's message string is kept. -/
inductive AppError where
  | DatabaseError (msg : String)
  | AuthenticationError (msg : String)
  | ValidationError (msg : String)
  | PaymentError (msg : String)
  | NotFound (msg : String)
  | InsufficientFunds
  | RateLimitExceeded
  | Unauthorized
  | Forbidden
  | Conflict (msg : String)
  | InternalServerError
  | BadRequest (msg : String)
  | ServiceUnavailable
  | Timeout
  | NetworkError (msg : String)
  | SerializationError (msg : String)
  | ConfigurationError (msg : String)
  | ExternalServiceError (msg : String)
deriving DecidableEq, Repr

/-- Wallet status from `src/domain/entities.rs` (`enum WalletStatus`). -/
inductive WalletStatus where
  | Active
  | Suspended
  | Locked
deriving DecidableEq, Repr

/-- Wallet entity from `src/domain/entities.rs` (`struct Wallet`). -/
structure Wallet where
  id : Nat
  user_id : Nat
  balance : ℚ
  currency : String
  status : WalletStatus
  pin_hash : Option String
  created_at : Nat
  updated_at : Nat
deriving DecidableEq, Repr

/-- `Wallet::verify_pin` from `src/domain/entities.rs`. `bcryptVerify pin hash` models
`bcrypt::verify(pin, hash)`, whose error branch the source maps to
`AuthenticationError("PIN verification failed: ..")`. -/
def Wallet.verify_pin (bcryptVerify : String → String → Except String Bool)
    (w : Wallet) (pin : String) : Except AppError Bool :=
  match w.pin_hash with
  | some hash =>
    match bcryptVerify pin hash with
    | .ok b => .ok b
    | .error e => .error (.AuthenticationError ("PIN verification failed: " ++ e))
  | none => .error (.ValidationError "No PIN set for this wallet")

/-- `Wallet::set_pin` from `src/domain/entities.rs`. `bcryptHash` models
`bcrypt::hash(&pin, bcrypt::DEFAULT_COST)`. -/
def Wallet.set_pin (bcryptHash : String → Except String String) (now : Nat)
    (w : Wallet) (pin : String) : Except AppError Wallet :=
  if pin.length ≠ 4 then
    .error (.ValidationError "PIN must be exactly 4 digits")
  else if ¬ pin.toList.all Char.isDigit then
    .error (.ValidationError "PIN must contain only digits")
  else
    match bcryptHash pin with
    | .ok hashed => .ok { w with pin_hash := some hashed, updated_at := now }
    | .error e => .error (.AuthenticationError ("Failed to hash PIN: " ++ e))

/-- `Wallet::credit` from `src/domain/entities.rs`. -/
def Wallet.credit (now : Nat) (w : Wallet) (amount : ℚ) : Except AppError Wallet :=
  if amount ≤ 0 then
    .error (.ValidationError "Credit amount must be positive")
  else if w.status ≠ WalletStatus.Active then
    .error (.PaymentError "Wallet is not active")
  else
    .ok { w with balance := w.balance + amount, updated_at := now }

/-- `Wallet::debit` from `src/domain/entities.rs`. -/
def Wallet.debit (now : Nat) (w : Wallet) (amount : ℚ) : Except AppError Wallet :=
  if amount ≤ 0 then
    .error (.ValidationError "Debit amount must be positive")
  else if w.status ≠ WalletStatus.Active then
    .error (.PaymentError "Wallet is not active")
  else if w.balance < amount then
    .error .InsufficientFunds
  else
    .ok { w with balance := w.balance - amount, updated_at := now }

/-- `Wallet::suspend` from `src/domain/entities.rs`. -/
def Wallet.suspend (now : Nat) (w : Wallet) : Wallet :=
  { w with status := .Suspended, updated_at := now }

/-- `Wallet::lock` from `src/domain/entities.rs`. -/
def Wallet.lock (now : Nat) (w : Wallet) : Wallet :=
  { w with status := .Locked, updated_at := now }

/-- `Wallet::activate` from `src/domain/entities.rs`. -/
def Wallet.activate (now : Nat) (w : Wallet) : Wallet :=
  { w with status := .Active, updated_at := now }

/-- `Wallet::is_active` from `src/domain/entities.rs`. -/
def Wallet.is_active (w : Wallet) : Bool :=
  w.status = WalletStatus.Active

/-- `Wallet::has_sufficient_balance` from `src/domain/entities.rs`. -/
def Wallet.has_sufficient_balance (w : Wallet) (amount : ℚ) : Bool :=
  w.balance ≥ amount

/-- Transaction status from `src/domain/entities.rs` (`enum TransactionStatus`). -/
inductive TransactionStatus where
  | Pending
  | Completed
  | Failed
  | Cancelled
deriving DecidableEq, Repr

/-- Transaction type from `src/domain/entities.rs` (`enum TransactionType`). -/
inductive TransactionType where
  | Transfer
  | Deposit
  | Withdrawal
deriving DecidableEq, Repr

/-- Transaction entity from `src/domain/entities.rs` (`struct Transaction`). -/
structure Transaction where
  id : Nat
  sender_wallet_id : Option Nat
  receiver_wallet_id : Option Nat
  transaction_type : TransactionType
  amount : ℚ
  currency : String
  status : TransactionStatus
  description : Option String
  reference : String
  created_at : Nat
  updated_at : Nat
deriving DecidableEq, Repr

/-- `struct CreateTransactionRequest` from `src/domain/entities.rs`. -/
structure CreateTransactionRequest where
  sender_wallet_id : Option Nat
  receiver_wallet_id : Option Nat
  transaction_type : TransactionType
  amount : ℚ
  currency : String
  description : Option String
deriving DecidableEq, Repr

/-- `Transaction::new` from `src/domain/entities.rs`. `freshId` models `Uuid::new_v4()`
for the record id and `freshRef` models the generated
`format!("TXN-..")` reference (a fresh UUID fragment); both are nondeterministic in
the source and passed explicitly here. -/
def Transaction.new (freshId : Nat) (freshRef : String) (now : Nat)
    (request : CreateTransactionRequest) : Except AppError Transaction :=
  if request.amount ≤ 0 then
    .error (.ValidationError "Transaction amount must be positive")
  else if request.currency ≠ "NGN" then
    .error (.ValidationError "Only NGN currency is supported")
  else
    match request.transaction_type with
    | .Transfer =>
      if request.sender_wallet_id.isNone ∨ request.receiver_wallet_id.isNone then
        .error (.ValidationError "Transfer transactions require both sender and receiver wallets")
      else if request.sender_wallet_id = request.receiver_wallet_id then
        .error (.ValidationError "Cannot transfer to the same wallet")
      else
        finishNew freshId freshRef now request
    | .Deposit =>
      if request.receiver_wallet_id.isNone then
        .error (.ValidationError "Deposit transactions require a receiver wallet")
      else if request.sender_wallet_id.isSome then
        .error (.ValidationError "Deposit transactions should not have a sender wallet")
      else
        finishNew freshId freshRef now request
    | .Withdrawal =>
      if request.sender_wallet_id.isNone then
        .error (.ValidationError "Withdrawal transactions require a sender wallet")
      else if request.receiver_wallet_id.isSome then
        .error (.ValidationError "Withdrawal transactions should not have a receiver wallet")
      else
        finishNew freshId freshRef now request
where
  /-- The shared tail of `Transaction::new`: the description-length check and the
  construction of the `Pending` record. -/
  finishNew (freshId : Nat) (freshRef : String) (now : Nat)
      (request : CreateTransactionRequest) : Except AppError Transaction :=
    if request.description.any (fun d => decide (d.length > 500)) then
      .error (.ValidationError "Transaction description cannot exceed 500 characters")
    else
      .ok {
        id := freshId
        sender_wallet_id := request.sender_wallet_id
        receiver_wallet_id := request.receiver_wallet_id
        transaction_type := request.transaction_type
        amount := request.amount
        currency := request.currency
        status := .Pending
        description := request.description
        reference := freshRef
        created_at := now
        updated_at := now
      }

/-- `Transaction::complete` from `src/domain/entities.rs`. -/
def Transaction.complete (now : Nat) (t : Transaction) : Except AppError Transaction :=
  if t.status ≠ TransactionStatus.Pending then
    .error (.PaymentError "Only pending transactions can be completed")
  else
    .ok { t with status := .Completed, updated_at := now }

/-- `Transaction::fail` from `src/domain/entities.rs`: rejected only when the status is
`Completed`; otherwise sets the status to `Failed` and, when a reason is given,
rewrites the description to `"<old> - Failed: <reason>"`. -/
def Transaction.fail (now : Nat) (t : Transaction) (reason : Option String) :
    Except AppError Transaction :=
  if t.status = TransactionStatus.Completed then
    .error (.PaymentError "Cannot fail a completed transaction")
  else
    .ok { t with
      status := .Failed
      description :=
        match reason with
        | some r => some ((t.description.getD "") ++ " - Failed: " ++ r)
        | none => t.description
      updated_at := now }

/-- `Transaction::cancel` from `src/domain/entities.rs`. -/
def Transaction.cancel (now : Nat) (t : Transaction) : Except AppError Transaction :=
  if t.status ≠ TransactionStatus.Pending then
    .error (.PaymentError "Only pending transactions can be cancelled")
  else
    .ok { t with status := .Cancelled, updated_at := now }

/-- Database row for a wallet, from
`src/infrastructure/database/models/wallet.rs` (`struct WalletModel`): the status is
stored as a raw string. -/
structure WalletModel where
  id : Nat
  user_id : Nat
  balance : ℚ
  currency : String
  status : String
  pin_hash : Option String
  created_at : Nat
  updated_at : Nat
deriving DecidableEq, Repr

/-- The status-string decoding performed inside
`PostgresWalletRepository::wallet_to_domain`
(`src/infrastructure/database/repositories/wallet.rs`): every string other than
`"suspended"` and `"locked"` — including every unrecognized one — maps to `Active`. -/
def wallet_status_of_row (s : String) : WalletStatus :=
  match s with
  | "active" => .Active
  | "suspended" => .Suspended
  | "locked" => .Locked
  | _ => .Active

/-- `PostgresWalletRepository::wallet_to_domain` from
`src/infrastructure/database/repositories/wallet.rs`: maps the stored status string to
the domain enum, defaulting every unrecognized string to `Active`. -/
def wallet_to_domain (model : WalletModel) : Except AppError Wallet :=
  let status : WalletStatus := wallet_status_of_row model.status
  .ok {
    id := model.id
    user_id := model.user_id
    balance := model.balance
    currency := model.currency
    status := status
    pin_hash := model.pin_hash
    created_at := model.created_at
    updated_at := model.updated_at
  }

/-- The order in which `PostgresWalletRepository::process_transfer`
(`src/infrastructure/database/repositories/wallet.rs`, lines 396–433) issues its two
`SELECT .. FOR UPDATE` row locks: the sender's row is always locked first, then the
receiver's row, in caller-supplied order. -/
def process_transfer_lock_order (sender_wallet_id receiver_wallet_id : Nat) : List Nat :=
  [sender_wallet_id, receiver_wallet_id]

/-- The persistence state the wallet repository operates on: the `wallets` table
(rows with raw status strings) and the `transactions` table (kept as domain records,
since `transaction_to_domain` is the identity on every value this development
stores). -/
structure LedgerState where
  wallets : List WalletModel
  transactions : List Transaction
deriving DecidableEq, Repr

/-- `SELECT .. FROM wallets WHERE id = $1`: the first row with the given id. -/
def LedgerState.findWalletRow (st : LedgerState) (id : Nat) : Option WalletModel :=
  st.wallets.find? (fun w => w.id = id)

/-- `SELECT * FROM wallets WHERE user_id = $1`: the first row with the given owner. -/
def LedgerState.findWalletRowByUser (st : LedgerState) (user_id : Nat) : Option WalletModel :=
  st.wallets.find? (fun w => w.user_id = user_id)

/-- `UPDATE wallets SET balance = balance + delta, updated_at = now WHERE id = $1`. -/
def LedgerState.updateBalance (st : LedgerState) (id : Nat) (delta : ℚ) (now : Nat) :
    LedgerState :=
  { st with wallets := st.wallets.map (fun w =>
      if w.id = id then { w with balance := w.balance + delta, updated_at := now } else w) }

/-- Modelled from the spec: the repository's `INSERT INTO transactions ..` relies on the
database schema's uniqueness constraint on `reference` (spec §6: "a uniqueness
constraint on `reference`"); the schema itself is not under `src/`. The violated
constraint is returned here as the raw database error string (modelling the
`sqlx::Error` of the failed `fetch_one`); `process_transfer` wraps it — like every
sqlx error in this repository — through its explicit `map_err` into
`AppError::DatabaseError` (wallet.rs, "Failed to create transaction record: .."),
so the `From<sqlx::Error>` conversion to `Conflict` in `src/domain/errors.rs` is
never reached on this path. -/
def LedgerState.insertTransaction (st : LedgerState) (record : Transaction) :
    Except String LedgerState :=
  if st.transactions.any (fun t => t.reference = record.reference) then
    .error "duplicate key value violates unique constraint transactions_reference_key"
  else
    .ok { st with transactions := st.transactions ++ [record] }

/-- `PostgresWalletRepository::process_transfer` from
`src/infrastructure/database/repositories/wallet.rs`: one all-or-nothing database
transaction that locks the sender row, checks its status string and balance, locks the
receiver row, checks its status string, applies the two balance updates, inserts the
record with type `"transfer"` and status `"completed"`, and commits. Any error before
the commit rolls the unit of work back, so the embedding returns the new state only on
success. -/
def process_transfer (now : Nat) (st : LedgerState)
    (sender_wallet_id receiver_wallet_id : Nat) (amount : ℚ)
    (transaction : Transaction) : Except AppError (LedgerState × Transaction) :=
  match st.findWalletRow sender_wallet_id with
  | none => .error (.DatabaseError "Failed to lock sender wallet: no rows returned")
  | some sender_row =>
    if sender_row.status ≠ "active" then
      .error (.PaymentError "Sender wallet is not active")
    else if sender_row.balance < amount then
      .error .InsufficientFunds
    else
      match st.findWalletRow receiver_wallet_id with
      | none => .error (.DatabaseError "Failed to lock receiver wallet: no rows returned")
      | some receiver_row =>
        if receiver_row.status ≠ "active" then
          .error (.PaymentError "Receiver wallet is not active")
        else
          let debited := st.updateBalance sender_wallet_id (-amount) now
          let credited := debited.updateBalance receiver_wallet_id amount now
          let record : Transaction := { transaction with
            transaction_type := .Transfer
            status := .Completed
            updated_at := now }
          match credited.insertTransaction record with
          | .error e => .error (.DatabaseError ("Failed to create transaction record: " ++ e))
          | .ok committed => .ok (committed, record)

/-- `struct TransferRequest` from `src/api/dto/payment.rs`: the client payload of
`POST /transfers`. The amount arrives as a decimal string; there is no client-supplied
reference field. -/
structure TransferRequest where
  receiver_user_id : Nat
  amount : String
  pin : String
  description : Option String
deriving DecidableEq, Repr

/-- `WalletRepository::find_by_user_id` followed by `wallet_to_domain`, as the handler
consumes it. -/
def find_by_user_id (st : LedgerState) (user_id : Nat) : Except AppError (Option Wallet) :=
  match st.findWalletRowByUser user_id with
  | none => .ok none
  | some row =>
    match wallet_to_domain row with
    | .ok w => .ok (some w)
    | .error e => .error e

/-- `create_transfer` from `src/api/payment_handlers.rs` (`POST /transfers`), up to and
including the atomic `process_transfer` call. `parseDecimal` models
`Decimal::from_str`, `bcryptVerify` models `bcrypt::verify`, and `freshTxId` /
`freshRef` model the UUIDs generated inside `Transaction::new`. The user-DTO assembly
after the committed transfer is presentation only and not modelled. -/
def create_transfer (parseDecimal : String → Option ℚ)
    (bcryptVerify : String → String → Except String Bool)
    (freshTxId : Nat) (freshRef : String) (now : Nat)
    (auth_user_id : Nat) (st : LedgerState) (payload : TransferRequest) :
    Except AppError (LedgerState × Transaction) :=
  match parseDecimal payload.amount with
  | none => .error (.ValidationError "Invalid amount format")
  | some amount =>
    if amount ≤ 0 then .error (.ValidationError "Amount must be positive")
    else
      match find_by_user_id st auth_user_id with
      | .error e => .error e
      | .ok none => .error (.NotFound "Sender wallet not found")
      | .ok (some sender_wallet) =>
        match Wallet.verify_pin bcryptVerify sender_wallet payload.pin with
        | .error e => .error e
        | .ok false => .error (.AuthenticationError "Invalid PIN")
        | .ok true =>
          if ¬ sender_wallet.has_sufficient_balance amount then
            .error .InsufficientFunds
          else
            match find_by_user_id st payload.receiver_user_id with
            | .error e => .error e
            | .ok none => .error (.NotFound "Receiver wallet not found")
            | .ok (some receiver_wallet) =>
              if sender_wallet.id = receiver_wallet.id then
                .error (.ValidationError "Cannot transfer to yourself")
              else
                match Transaction.new freshTxId freshRef now {
                    sender_wallet_id := some sender_wallet.id
                    receiver_wallet_id := some receiver_wallet.id
                    transaction_type := .Transfer
                    amount := amount
                    currency := "NGN"
                    description := payload.description } with
                | .error e => .error e
                | .ok transaction =>
                  process_transfer now st sender_wallet.id receiver_wallet.id amount
                    transaction

/-- The persistence state after a `create_transfer` call: on any error the database is
untouched (every rejection happens either before any write or inside the rolled-back
unit of work). -/
def create_transfer_post (parseDecimal : String → Option ℚ)
    (bcryptVerify : String → String → Except String Bool)
    (freshTxId : Nat) (freshRef : String) (now : Nat)
    (auth_user_id : Nat) (st : LedgerState) (payload : TransferRequest) : LedgerState :=
  match create_transfer parseDecimal bcryptVerify freshTxId freshRef now
      auth_user_id st payload with
  | .ok (st', _) => st'
  | .error _ => st

/-- The complete set of `&mut self` operations on `Wallet` in
`src/domain/entities.rs`: `set_pin`, `credit`, `debit`, `suspend`, `lock`,
`activate`. No other code path assigns to `balance`. -/
inductive WalletOp where
  | setPinOp (now : Nat) (pin : String)
  | creditOp (now : Nat) (amount : ℚ)
  | debitOp (now : Nat) (amount : ℚ)
  | suspendOp (now : Nat)
  | lockOp (now : Nat)
  | activateOp (now : Nat)

/-- The wallet state after one mutating call: a `Result::Err` early return leaves the
`&mut self` receiver untouched. -/
def Wallet.step (bcryptHash : String → Except String String) (w : Wallet) :
    WalletOp → Wallet
  | .setPinOp now pin =>
    match w.set_pin bcryptHash now pin with
    | .ok w' => w'
    | .error _ => w
  | .creditOp now amount =>
    match w.credit now amount with
    | .ok w' => w'
    | .error _ => w
  | .debitOp now amount =>
    match w.debit now amount with
    | .ok w' => w'
    | .error _ => w
  | .suspendOp now => w.suspend now
  | .lockOp now => w.lock now
  | .activateOp now => w.activate now

/-- The wallet state after a finite sequence of mutating calls. -/
def Wallet.runOps (bcryptHash : String → Except String String) (w : Wallet)
    (ops : List WalletOp) : Wallet :=
  ops.foldl (Wallet.step bcryptHash) w

/-! Theorems. -/

/-- C1: for every pair of distinct Active wallets and every amount `a` with
`0 < a ≤ sender.balance`, `debit a` on the sender and `credit a` on the receiver (as
the transfer protocol performs them) both succeed, decrease the sender's balance by
exactly `a`, increase the receiver's balance by exactly `a`, and conserve the sum of
the two balances. -/
theorem transfer_conservation (now₁ now₂ : Nat) (sender receiver : Wallet) (a : ℚ)
    (hs : sender.status = WalletStatus.Active)
    (hr : receiver.status = WalletStatus.Active)
    (hne : sender.id ≠ receiver.id)
    (hpos : 0 < a) (hle : a ≤ sender.balance) :
    ∃ sender' receiver',
      Wallet.debit now₁ sender a = .ok sender' ∧
      Wallet.credit now₂ receiver a = .ok receiver' ∧
      sender'.balance = sender.balance - a ∧
      receiver'.balance = receiver.balance + a ∧
      sender'.balance + receiver'.balance = sender.balance + receiver.balance := by
  refine ⟨{ sender with balance := sender.balance - a, updated_at := now₁ },
          { receiver with balance := receiver.balance + a, updated_at := now₂ },
          ?_, ?_, rfl, rfl, ?_⟩
  · simp [Wallet.debit, hs, not_le.mpr hpos, not_lt.mpr hle]
  · simp [Wallet.credit, hr, not_le.mpr hpos]
  · show sender.balance - a + (receiver.balance + a) = sender.balance + receiver.balance
    ring

/-- Witness for C1 at a concrete pair of wallets and amount. -/
theorem transfer_conservation_witness :
    ∃ sender' receiver',
      Wallet.debit 1 ⟨1, 10, 100, "NGN", .Active, none, 0, 0⟩ 30 = .ok sender' ∧
      Wallet.credit 2 ⟨2, 20, 5, "NGN", .Active, none, 0, 0⟩ 30 = .ok receiver' ∧
      sender'.balance = 100 - 30 ∧
      receiver'.balance = 5 + 30 ∧
      sender'.balance + receiver'.balance = 100 + 5 :=
  transfer_conservation 1 2 _ _ 30 rfl rfl (by decide) (by norm_num) (by norm_num)

/-- `Wallet::set_pin` never changes the balance. -/
theorem set_pin_ok_balance {bh : String → Except String String} {now : Nat} {w : Wallet}
    {pin : String} {w' : Wallet} (h : Wallet.set_pin bh now w pin = .ok w') :
    w'.balance = w.balance := by
  unfold Wallet.set_pin at h
  split at h
  · exact absurd h (by simp)
  · split at h
    · exact absurd h (by simp)
    · split at h
      · cases h
        rfl
      · exact absurd h (by simp)

/-- A successful `Wallet::credit` adds exactly the (positive) amount. -/
theorem credit_ok_balance {now : Nat} {w : Wallet} {a : ℚ} {w' : Wallet}
    (h : Wallet.credit now w a = .ok w') :
    w'.balance = w.balance + a ∧ 0 < a := by
  unfold Wallet.credit at h
  split at h
  · exact absurd h (by simp)
  · split at h
    · exact absurd h (by simp)
    · cases h
      exact ⟨rfl, lt_of_not_le (by assumption)⟩

/-- A successful `Wallet::debit` subtracts exactly the (positive, covered) amount. -/
theorem debit_ok_balance {now : Nat} {w : Wallet} {a : ℚ} {w' : Wallet}
    (h : Wallet.debit now w a = .ok w') :
    w'.balance = w.balance - a ∧ 0 < a ∧ a ≤ w.balance := by
  unfold Wallet.debit at h
  split at h
  · exact absurd h (by simp)
  · split at h
    · exact absurd h (by simp)
    · split at h
      · exact absurd h (by simp)
      · cases h
        exact ⟨rfl, lt_of_not_le (by assumption), le_of_not_lt (by assumption)⟩

/-- One mutating wallet call preserves `balance ≥ 0`. -/
theorem balance_nonneg_step (bh : String → Except String String) (w : Wallet)
    (op : WalletOp) (h : 0 ≤ w.balance) : 0 ≤ (Wallet.step bh w op).balance := by
  cases op with
  | setPinOp now pin =>
    cases hq : Wallet.set_pin bh now w pin with
    | error e => simpa [Wallet.step, hq] using h
    | ok w' =>
      simp only [Wallet.step, hq]
      rw [set_pin_ok_balance hq]
      exact h
  | creditOp now a =>
    cases hq : Wallet.credit now w a with
    | error e => simpa [Wallet.step, hq] using h
    | ok w' =>
      simp only [Wallet.step, hq]
      obtain ⟨hb, hpos⟩ := credit_ok_balance hq
      rw [hb]
      linarith
  | debitOp now a =>
    cases hq : Wallet.debit now w a with
    | error e => simpa [Wallet.step, hq] using h
    | ok w' =>
      simp only [Wallet.step, hq]
      obtain ⟨hb, hpos, hcov⟩ := debit_ok_balance hq
      rw [hb]
      linarith
  | suspendOp now => simpa [Wallet.step, Wallet.suspend] using h
  | lockOp now => simpa [Wallet.step, Wallet.lock] using h
  | activateOp now => simpa [Wallet.step, Wallet.activate] using h

/-- Any finite sequence of mutating wallet calls preserves `balance ≥ 0`. -/
theorem balance_nonneg_runOps (bh : String → Except String String) (w : Wallet)
    (ops : List WalletOp) (h : 0 ≤ w.balance) :
    0 ≤ (Wallet.runOps bh w ops).balance := by
  induction ops generalizing w with
  | nil => simpa [Wallet.runOps] using h
  | cons op rest ih =>
    have := ih (Wallet.step bh w op) (balance_nonneg_step bh w op h)
    simpa [Wallet.runOps, List.foldl_cons] using this

/-- C2: starting from `balance ≥ 0`, the invariant holds after every one of the
mutating calls in any finite sequence; a `credit`/`debit` with a non-positive amount,
or a `debit` exceeding the balance, returns an error and leaves the wallet untouched;
and `set_pin`, `suspend`, `lock`, `activate` — the only other mutating operations —
never change the balance. -/
theorem wallet_balance_invariant (bh : String → Except String String) (w : Wallet)
    (ops : List WalletOp) (h : 0 ≤ w.balance) :
    (∀ n, 0 ≤ (Wallet.runOps bh w (ops.take n)).balance) ∧
    (∀ now a, a ≤ 0 →
      (∃ e, Wallet.credit now w a = .error e) ∧
        Wallet.step bh w (.creditOp now a) = w) ∧
    (∀ now a, a ≤ 0 →
      (∃ e, Wallet.debit now w a = .error e) ∧
        Wallet.step bh w (.debitOp now a) = w) ∧
    (∀ now a, w.balance < a →
      (∃ e, Wallet.debit now w a = .error e) ∧
        Wallet.step bh w (.debitOp now a) = w) ∧
    (∀ now pin, (Wallet.step bh w (.setPinOp now pin)).balance = w.balance) ∧
    (∀ now, (Wallet.step bh w (.suspendOp now)).balance = w.balance) ∧
    (∀ now, (Wallet.step bh w (.lockOp now)).balance = w.balance) ∧
    (∀ now, (Wallet.step bh w (.activateOp now)).balance = w.balance) := by
  refine ⟨fun n => balance_nonneg_runOps bh w (ops.take n) h, ?_, ?_, ?_, ?_, ?_, ?_, ?_⟩
  · intro now a ha
    have he : Wallet.credit now w a = .error (.ValidationError "Credit amount must be positive") := by
      simp [Wallet.credit, ha]
    exact ⟨⟨_, he⟩, by simp [Wallet.step, he]⟩
  · intro now a ha
    have he : Wallet.debit now w a = .error (.ValidationError "Debit amount must be positive") := by
      simp [Wallet.debit, ha]
    exact ⟨⟨_, he⟩, by simp [Wallet.step, he]⟩
  · intro now a ha
    have he : ∃ e, Wallet.debit now w a = .error e := by
      unfold Wallet.debit
      by_cases h1 : a ≤ 0
      · exact ⟨.ValidationError "Debit amount must be positive", by simp [h1]⟩
      · by_cases h2 : w.status ≠ WalletStatus.Active
        · exact ⟨.PaymentError "Wallet is not active", by simp [h1, h2]⟩
        · exact ⟨.InsufficientFunds, by simp [h1, h2, ha]⟩
    obtain ⟨e, he⟩ := he
    exact ⟨⟨e, he⟩, by simp [Wallet.step, he]⟩
  · intro now pin
    cases hq : Wallet.set_pin bh now w pin with
    | error e => simp [Wallet.step, hq]
    | ok w' => simp [Wallet.step, hq, set_pin_ok_balance hq]
  · intro now
    simp [Wallet.step, Wallet.suspend]
  · intro now
    simp [Wallet.step, Wallet.lock]
  · intro now
    simp [Wallet.step, Wallet.activate]

/-- Witness for C2: the invariant after each call of a concrete two-call sequence on a
concrete wallet. -/
theorem wallet_balance_invariant_witness :
    0 ≤ (Wallet.runOps (fun s => .ok s) ⟨1, 10, 7, "NGN", .Active, none, 0, 0⟩
      ([.creditOp 1 5, .debitOp 2 3].take 2)).balance :=
  (wallet_balance_invariant (fun s => .ok s) ⟨1, 10, 7, "NGN", .Active, none, 0, 0⟩
    [.creditOp 1 5, .debitOp 2 3] (by norm_num)).1 2

/-- C4 counterexample: `fail` on a Cancelled transaction does not return an error — it
succeeds and moves the status from Cancelled to Failed, because `Transaction::fail`
rejects only `Completed` transactions. -/
theorem tx_fail_on_cancelled_succeeds :
    Transaction.fail 1
      ⟨1, some 1, some 2, .Transfer, 5, "NGN", .Cancelled, none, "TXN-A", 0, 0⟩ none
      = .ok ⟨1, some 1, some 2, .Transfer, 5, "NGN", .Failed, none, "TXN-A", 0, 1⟩ := by
  rfl

/-- C4 amended: on a Failed or Cancelled transaction, `complete()` and `cancel()`
return an error and leave the status unchanged, but `fail(reason)` — which rejects
only Completed transactions — succeeds and (re)sets the status to Failed. -/
theorem tx_terminal_states (now : Nat) (t : Transaction) (reason : Option String)
    (h : t.status = TransactionStatus.Failed ∨ t.status = TransactionStatus.Cancelled) :
    (∃ e, Transaction.complete now t = .error e) ∧
    (∃ e, Transaction.cancel now t = .error e) ∧
    (∃ t', Transaction.fail now t reason = .ok t' ∧ t'.status = TransactionStatus.Failed) := by
  have hnp : t.status ≠ TransactionStatus.Pending := by
    rcases h with h | h <;> simp [h]
  have hnc : t.status ≠ TransactionStatus.Completed := by
    rcases h with h | h <;> simp [h]
  refine ⟨⟨.PaymentError "Only pending transactions can be completed", ?_⟩,
          ⟨.PaymentError "Only pending transactions can be cancelled", ?_⟩,
          ⟨{ t with
              status := .Failed
              description :=
                match reason with
                | some r => some ((t.description.getD "") ++ " - Failed: " ++ r)
                | none => t.description
              updated_at := now }, ?_, rfl⟩⟩
  · simp [Transaction.complete, hnp]
  · simp [Transaction.cancel, hnp]
  · simp [Transaction.fail, hnc]

/-- Witness for C4 amended at a concrete Cancelled transaction. -/
theorem tx_terminal_states_witness :
    (∃ e, Transaction.complete 3
      ⟨1, some 1, some 2, .Transfer, 5, "NGN", .Cancelled, none, "TXN-A", 0, 0⟩ = .error e) ∧
    (∃ e, Transaction.cancel 3
      ⟨1, some 1, some 2, .Transfer, 5, "NGN", .Cancelled, none, "TXN-A", 0, 0⟩ = .error e) ∧
    (∃ t', Transaction.fail 3
      ⟨1, some 1, some 2, .Transfer, 5, "NGN", .Cancelled, none, "TXN-A", 0, 0⟩ none = .ok t' ∧
      t'.status = TransactionStatus.Failed) :=
  tx_terminal_states 3 _ none (Or.inr rfl)

/-- C9: every terminal transition out of Pending leaves `id`, `reference`,
`sender_wallet_id`, `receiver_wallet_id`, `transaction_type`, `amount`, `currency`
and `created_at` unchanged; `complete`, `cancel`, and `fail` without a reason also
leave the description unchanged, while `fail (some reason)` replaces it with the old
description (or the empty string) followed by `" - Failed: "` and the reason — so a
failed transaction's description may exceed the 500-character bound `Transaction::new`
enforces at creation. -/
theorem tx_pending_frame (now : Nat) (t : Transaction) (reason : String)
    (h : t.status = TransactionStatus.Pending) :
    (∃ tc, Transaction.complete now t = .ok tc ∧
      tc.id = t.id ∧ tc.reference = t.reference ∧
      tc.sender_wallet_id = t.sender_wallet_id ∧
      tc.receiver_wallet_id = t.receiver_wallet_id ∧
      tc.transaction_type = t.transaction_type ∧ tc.amount = t.amount ∧
      tc.currency = t.currency ∧ tc.created_at = t.created_at ∧
      tc.description = t.description) ∧
    (∃ tx, Transaction.cancel now t = .ok tx ∧
      tx.id = t.id ∧ tx.reference = t.reference ∧
      tx.sender_wallet_id = t.sender_wallet_id ∧
      tx.receiver_wallet_id = t.receiver_wallet_id ∧
      tx.transaction_type = t.transaction_type ∧ tx.amount = t.amount ∧
      tx.currency = t.currency ∧ tx.created_at = t.created_at ∧
      tx.description = t.description) ∧
    (∃ tf, Transaction.fail now t none = .ok tf ∧
      tf.id = t.id ∧ tf.reference = t.reference ∧
      tf.sender_wallet_id = t.sender_wallet_id ∧
      tf.receiver_wallet_id = t.receiver_wallet_id ∧
      tf.transaction_type = t.transaction_type ∧ tf.amount = t.amount ∧
      tf.currency = t.currency ∧ tf.created_at = t.created_at ∧
      tf.description = t.description) ∧
    (∃ tf, Transaction.fail now t (some reason) = .ok tf ∧
      tf.id = t.id ∧ tf.reference = t.reference ∧
      tf.sender_wallet_id = t.sender_wallet_id ∧
      tf.receiver_wallet_id = t.receiver_wallet_id ∧
      tf.transaction_type = t.transaction_type ∧ tf.amount = t.amount ∧
      tf.currency = t.currency ∧ tf.created_at = t.created_at ∧
      tf.description = some ((t.description.getD "") ++ " - Failed: " ++ reason)) := by
  have hnc : t.status ≠ TransactionStatus.Completed := by simp [h]
  refine ⟨⟨{ t with status := .Completed, updated_at := now },
            ?_, rfl, rfl, rfl, rfl, rfl, rfl, rfl, rfl, rfl⟩,
          ⟨{ t with status := .Cancelled, updated_at := now },
            ?_, rfl, rfl, rfl, rfl, rfl, rfl, rfl, rfl, rfl⟩,
          ⟨{ t with status := .Failed, updated_at := now },
            ?_, rfl, rfl, rfl, rfl, rfl, rfl, rfl, rfl, rfl⟩,
          ⟨{ t with
              status := .Failed
              description := some ((t.description.getD "") ++ " - Failed: " ++ reason)
              updated_at := now },
            ?_, rfl, rfl, rfl, rfl, rfl, rfl, rfl, rfl, rfl⟩⟩
  · simp [Transaction.complete, h]
  · simp [Transaction.cancel, h]
  · simp [Transaction.fail, hnc]
  · simp [Transaction.fail, hnc]

/-- Witness for C9 at a concrete Pending transaction. -/
theorem tx_pending_frame_witness :
    (∃ tc, Transaction.complete 9
      ⟨4, some 1, some 2, .Transfer, 25, "NGN", .Pending, some "rent", "TXN-B", 3, 3⟩ = .ok tc ∧
      tc.id = 4 ∧ tc.reference = "TXN-B" ∧
      tc.sender_wallet_id = some 1 ∧ tc.receiver_wallet_id = some 2 ∧
      tc.transaction_type = .Transfer ∧ tc.amount = 25 ∧
      tc.currency = "NGN" ∧ tc.created_at = 3 ∧ tc.description = some "rent") ∧
    (∃ tx, Transaction.cancel 9
      ⟨4, some 1, some 2, .Transfer, 25, "NGN", .Pending, some "rent", "TXN-B", 3, 3⟩ = .ok tx ∧
      tx.id = 4 ∧ tx.reference = "TXN-B" ∧
      tx.sender_wallet_id = some 1 ∧ tx.receiver_wallet_id = some 2 ∧
      tx.transaction_type = .Transfer ∧ tx.amount = 25 ∧
      tx.currency = "NGN" ∧ tx.created_at = 3 ∧ tx.description = some "rent") ∧
    (∃ tf, Transaction.fail 9
      ⟨4, some 1, some 2, .Transfer, 25, "NGN", .Pending, some "rent", "TXN-B", 3, 3⟩ none = .ok tf ∧
      tf.id = 4 ∧ tf.reference = "TXN-B" ∧
      tf.sender_wallet_id = some 1 ∧ tf.receiver_wallet_id = some 2 ∧
      tf.transaction_type = .Transfer ∧ tf.amount = 25 ∧
      tf.currency = "NGN" ∧ tf.created_at = 3 ∧ tf.description = some "rent") ∧
    (∃ tf, Transaction.fail 9
      ⟨4, some 1, some 2, .Transfer, 25, "NGN", .Pending, some "rent", "TXN-B", 3, 3⟩
        (some "storage down") = .ok tf ∧
      tf.id = 4 ∧ tf.reference = "TXN-B" ∧
      tf.sender_wallet_id = some 1 ∧ tf.receiver_wallet_id = some 2 ∧
      tf.transaction_type = .Transfer ∧ tf.amount = 25 ∧
      tf.currency = "NGN" ∧ tf.created_at = 3 ∧
      tf.description = some (((some "rent").getD "") ++ " - Failed: " ++ "storage down")) :=
  tx_pending_frame 9 _ "storage down" rfl

/-- C3 (the spec's mandated canonical lock ordering, flagged in §9 as not implemented
by the source): at the failing input `sender_wallet_id = 2`, `receiver_wallet_id = 1`,
the source's atomic phase locks the sender's row (id 2) first, i.e. the larger id
before the smaller one, not the canonical smaller-id-first order. -/
theorem lock_order_sender_first :
    process_transfer_lock_order 2 1 = [2, 1] ∧
    (process_transfer_lock_order 2 1).head? ≠ some (min 2 1) := by
  decide

/-- Every status string other than `"suspended"` and `"locked"` decodes to `Active`. -/
theorem wallet_status_of_row_default (s : String)
    (h1 : s ≠ "suspended") (h2 : s ≠ "locked") :
    wallet_status_of_row s = .Active := by
  unfold wallet_status_of_row
  split
  · rfl
  · contradiction
  · contradiction
  · rfl

/-- C10: loading a wallet row maps `"active"`, `"suspended"`, `"locked"` to the
corresponding status and every other string to `Active`, producing a wallet on which
`credit` (for a positive amount) and `debit` (for a positive, covered amount) are
permitted — a fail-open default. -/
theorem wallet_status_decoding (m : WalletModel) (now : Nat) (a : ℚ) :
    ∃ w, wallet_to_domain m = .ok w ∧ w.balance = m.balance ∧
      (m.status = "active" → w.status = .Active) ∧
      (m.status = "suspended" → w.status = .Suspended) ∧
      (m.status = "locked" → w.status = .Locked) ∧
      (m.status ≠ "suspended" → m.status ≠ "locked" →
        w.status = .Active ∧
        (0 < a → ∃ w', Wallet.credit now w a = .ok w') ∧
        (0 < a → a ≤ w.balance → ∃ w', Wallet.debit now w a = .ok w')) := by
  refine ⟨⟨m.id, m.user_id, m.balance, m.currency, wallet_status_of_row m.status,
          m.pin_hash, m.created_at, m.updated_at⟩, rfl, rfl, ?_, ?_, ?_, ?_⟩
  · intro h
    show wallet_status_of_row m.status = _
    rw [h]
    decide
  · intro h
    show wallet_status_of_row m.status = _
    rw [h]
    decide
  · intro h
    show wallet_status_of_row m.status = _
    rw [h]
    decide
  · intro h1 h2
    have hst : wallet_status_of_row m.status = .Active :=
      wallet_status_of_row_default _ h1 h2
    refine ⟨hst, fun hpos => ⟨⟨m.id, m.user_id, m.balance + a, m.currency,
        wallet_status_of_row m.status, m.pin_hash, m.created_at, now⟩, ?_⟩,
      fun hpos hle => ⟨⟨m.id, m.user_id, m.balance - a, m.currency,
        wallet_status_of_row m.status, m.pin_hash, m.created_at, now⟩, ?_⟩⟩
    · simp [Wallet.credit, not_le.mpr hpos, hst]
    · simp [Wallet.debit, not_le.mpr hpos, not_lt.mpr hle, hst]

/-- Witness for C10 at a concrete row with the unrecognized status string `"frozen"`. -/
theorem wallet_status_decoding_witness :
    ∃ w, wallet_to_domain ⟨1, 10, 40, "NGN", "frozen", none, 0, 0⟩ = .ok w ∧
      w.balance = 40 ∧
      ("frozen" = "active" → w.status = .Active) ∧
      ("frozen" = "suspended" → w.status = .Suspended) ∧
      ("frozen" = "locked" → w.status = .Locked) ∧
      (("frozen" : String) ≠ "suspended" → ("frozen" : String) ≠ "locked" →
        w.status = .Active ∧
        ((0 : ℚ) < 7 → ∃ w', Wallet.credit 5 w 7 = .ok w') ∧
        ((0 : ℚ) < 7 → (7 : ℚ) ≤ w.balance → ∃ w', Wallet.debit 5 w 7 = .ok w')) :=
  wallet_status_decoding ⟨1, 10, 40, "NGN", "frozen", none, 0, 0⟩ 5 7

/-- C8: `verify_pin` preserves the distinction between "no PIN configured"
(ValidationError, for every candidate) and "wrong PIN": with a PIN set the result is
exactly what the hash verifier says about the candidate and the stored hash — never a
plaintext string comparison — and the transfer handler surfaces a `false` verdict as
`AuthenticationError "Invalid PIN"`. -/
theorem verify_pin_distinguishes
    (v : String → String → Except String Bool) (w : Wallet) (pin : String) :
    (w.pin_hash = none →
      Wallet.verify_pin v w pin = .error (.ValidationError "No PIN set for this wallet")) ∧
    (∀ hash b, w.pin_hash = some hash → v pin hash = .ok b →
      Wallet.verify_pin v w pin = .ok b) ∧
    (∀ hash e, w.pin_hash = some hash → v pin hash = .error e →
      Wallet.verify_pin v w pin =
        .error (.AuthenticationError ("PIN verification failed: " ++ e))) ∧
    (∀ (parseDecimal : String → Option ℚ) freshTxId freshRef now uid st
        (payload : TransferRequest) amt row hh,
      parseDecimal payload.amount = some amt → 0 < amt →
      LedgerState.findWalletRowByUser st uid = some row →
      row.pin_hash = some hh → v payload.pin hh = .ok false →
      create_transfer parseDecimal v freshTxId freshRef now uid st payload =
        .error (.AuthenticationError "Invalid PIN")) := by
  refine ⟨?_, ?_, ?_, ?_⟩
  · intro h
    simp [Wallet.verify_pin, h]
  · intro hash b hh hv
    simp [Wallet.verify_pin, hh, hv]
  · intro hash e hh hv
    simp [Wallet.verify_pin, hh, hv]
  · intro parseDecimal freshTxId freshRef now uid st payload amt row hh hp hpos hrow hpin hv
    simp [create_transfer, find_by_user_id, wallet_to_domain, Wallet.verify_pin,
      hp, not_le.mpr hpos, hrow, hpin, hv]

/-- Witness for C8: the no-PIN case, the mismatch case, and the handler surfacing, at
concrete inputs. -/
theorem verify_pin_distinguishes_witness :
    Wallet.verify_pin (fun _ _ => .ok true) ⟨1, 10, 0, "NGN", .Active, none, 0, 0⟩ "1234"
      = .error (.ValidationError "No PIN set for this wallet") ∧
    Wallet.verify_pin (fun _ _ => .ok false)
      ⟨1, 10, 0, "NGN", .Active, some "PH", 0, 0⟩ "1234" = .ok false ∧
    create_transfer (fun _ => some 25) (fun _ _ => .ok false) 9 "TXN-W" 5 10
      ⟨[⟨1, 10, 50, "NGN", "active", some "PH", 0, 0⟩], []⟩ ⟨20, "25", "0000", none⟩
      = .error (.AuthenticationError "Invalid PIN") :=
  ⟨(verify_pin_distinguishes (fun _ _ => .ok true) _ "1234").1 rfl,
   (verify_pin_distinguishes (fun _ _ => .ok false) _ "1234").2.1 "PH" false rfl rfl,
   (verify_pin_distinguishes (fun _ _ => .ok false)
      ⟨1, 10, 50, "NGN", .Active, some "PH", 0, 0⟩ "0000").2.2.2
     (fun _ => some 25) 9 "TXN-W" 5 10
     ⟨[⟨1, 10, 50, "NGN", "active", some "PH", 0, 0⟩], []⟩ ⟨20, "25", "0000", none⟩
     25 ⟨1, 10, 50, "NGN", "active", some "PH", 0, 0⟩ "PH"
     rfl (by norm_num) rfl rfl rfl⟩

/-- C5: every pre-lock rejection of `create_transfer` — unparseable or non-positive
amount (ValidationError), missing sender or receiver wallet (NotFound), wrong PIN
(AuthenticationError), insufficient balance (InsufficientFunds), self-transfer
(ValidationError) — returns the stated error kind and leaves the persistence state
(both balances and the transactions table) byte-for-byte unchanged. -/
theorem transfer_fail_closed
    (p : String → Option ℚ) (v : String → String → Except String Bool)
    (ftx : Nat) (fref : String) (now uid : Nat) (st : LedgerState)
    (payload : TransferRequest) :
    (p payload.amount = none →
      create_transfer p v ftx fref now uid st payload =
        .error (.ValidationError "Invalid amount format") ∧
      create_transfer_post p v ftx fref now uid st payload = st) ∧
    (∀ amt, p payload.amount = some amt → amt ≤ 0 →
      create_transfer p v ftx fref now uid st payload =
        .error (.ValidationError "Amount must be positive") ∧
      create_transfer_post p v ftx fref now uid st payload = st) ∧
    (∀ amt, p payload.amount = some amt → 0 < amt →
      st.findWalletRowByUser uid = none →
      create_transfer p v ftx fref now uid st payload =
        .error (.NotFound "Sender wallet not found") ∧
      create_transfer_post p v ftx fref now uid st payload = st) ∧
    (∀ amt row hh, p payload.amount = some amt → 0 < amt →
      st.findWalletRowByUser uid = some row → row.pin_hash = some hh →
      v payload.pin hh = .ok false →
      create_transfer p v ftx fref now uid st payload =
        .error (.AuthenticationError "Invalid PIN") ∧
      create_transfer_post p v ftx fref now uid st payload = st) ∧
    (∀ amt row hh, p payload.amount = some amt → 0 < amt →
      st.findWalletRowByUser uid = some row → row.pin_hash = some hh →
      v payload.pin hh = .ok true → row.balance < amt →
      create_transfer p v ftx fref now uid st payload = .error .InsufficientFunds ∧
      create_transfer_post p v ftx fref now uid st payload = st) ∧
    (∀ amt row hh, p payload.amount = some amt → 0 < amt →
      st.findWalletRowByUser uid = some row → row.pin_hash = some hh →
      v payload.pin hh = .ok true → amt ≤ row.balance →
      st.findWalletRowByUser payload.receiver_user_id = none →
      create_transfer p v ftx fref now uid st payload =
        .error (.NotFound "Receiver wallet not found") ∧
      create_transfer_post p v ftx fref now uid st payload = st) ∧
    (∀ amt row hh rrow, p payload.amount = some amt → 0 < amt →
      st.findWalletRowByUser uid = some row → row.pin_hash = some hh →
      v payload.pin hh = .ok true → amt ≤ row.balance →
      st.findWalletRowByUser payload.receiver_user_id = some rrow →
      row.id = rrow.id →
      create_transfer p v ftx fref now uid st payload =
        .error (.ValidationError "Cannot transfer to yourself") ∧
      create_transfer_post p v ftx fref now uid st payload = st) := by
  refine ⟨?_, ?_, ?_, ?_, ?_, ?_, ?_⟩
  · intro hp
    have hCT : create_transfer p v ftx fref now uid st payload =
        .error (.ValidationError "Invalid amount format") := by
      simp [create_transfer, hp]
    exact ⟨hCT, by simp [create_transfer_post, hCT]⟩
  · intro amt hp ha
    have hCT : create_transfer p v ftx fref now uid st payload =
        .error (.ValidationError "Amount must be positive") := by
      simp [create_transfer, hp, ha]
    exact ⟨hCT, by simp [create_transfer_post, hCT]⟩
  · intro amt hp ha hrow
    have hCT : create_transfer p v ftx fref now uid st payload =
        .error (.NotFound "Sender wallet not found") := by
      simp [create_transfer, find_by_user_id, hp, not_le.mpr ha, hrow]
    exact ⟨hCT, by simp [create_transfer_post, hCT]⟩
  · intro amt row hh hp ha hrow hpin hv
    have hCT : create_transfer p v ftx fref now uid st payload =
        .error (.AuthenticationError "Invalid PIN") := by
      simp [create_transfer, find_by_user_id, wallet_to_domain, Wallet.verify_pin,
        hp, not_le.mpr ha, hrow, hpin, hv]
    exact ⟨hCT, by simp [create_transfer_post, hCT]⟩
  · intro amt row hh hp ha hrow hpin hv hbal
    have hCT : create_transfer p v ftx fref now uid st payload =
        .error .InsufficientFunds := by
      simp [create_transfer, find_by_user_id, wallet_to_domain, Wallet.verify_pin,
        Wallet.has_sufficient_balance, hp, not_le.mpr ha, hrow, hpin, hv,
        not_le.mpr hbal]
    exact ⟨hCT, by simp [create_transfer_post, hCT]⟩
  · intro amt row hh hp ha hrow hpin hv hbal hrecv
    have hCT : create_transfer p v ftx fref now uid st payload =
        .error (.NotFound "Receiver wallet not found") := by
      simp [create_transfer, find_by_user_id, wallet_to_domain, Wallet.verify_pin,
        Wallet.has_sufficient_balance, hp, not_le.mpr ha, hrow, hpin, hv,
        ge_iff_le, hbal, hrecv]
    exact ⟨hCT, by simp [create_transfer_post, hCT]⟩
  · intro amt row hh rrow hp ha hrow hpin hv hbal hrecv hid
    have hCT : create_transfer p v ftx fref now uid st payload =
        .error (.ValidationError "Cannot transfer to yourself") := by
      simp [create_transfer, find_by_user_id, wallet_to_domain, Wallet.verify_pin,
        Wallet.has_sufficient_balance, hp, not_le.mpr ha, hrow, hpin, hv,
        ge_iff_le, hbal, hrecv, hid]
    exact ⟨hCT, by simp [create_transfer_post, hCT]⟩

/-- Witness for C5: the unparseable-amount rejection and the self-transfer rejection
at concrete inputs, each with an unchanged state. -/
theorem transfer_fail_closed_witness :
    (create_transfer (fun _ => none) (fun _ _ => .ok true) 9 "TXN-W2" 5 10
      ⟨[], []⟩ ⟨20, "abc", "0000", none⟩ =
        .error (.ValidationError "Invalid amount format") ∧
      create_transfer_post (fun _ => none) (fun _ _ => .ok true) 9 "TXN-W2" 5 10
        ⟨[], []⟩ ⟨20, "abc", "0000", none⟩ = ⟨[], []⟩) ∧
    (create_transfer (fun _ => some 25) (fun _ _ => .ok true) 9 "TXN-W3" 5 10
      ⟨[⟨1, 10, 50, "NGN", "active", some "PH", 0, 0⟩], []⟩ ⟨10, "25", "0000", none⟩ =
        .error (.ValidationError "Cannot transfer to yourself") ∧
      create_transfer_post (fun _ => some 25) (fun _ _ => .ok true) 9 "TXN-W3" 5 10
        ⟨[⟨1, 10, 50, "NGN", "active", some "PH", 0, 0⟩], []⟩ ⟨10, "25", "0000", none⟩ =
        ⟨[⟨1, 10, 50, "NGN", "active", some "PH", 0, 0⟩], []⟩) :=
  ⟨(transfer_fail_closed (fun _ => none) (fun _ _ => .ok true) 9 "TXN-W2" 5 10
      ⟨[], []⟩ ⟨20, "abc", "0000", none⟩).1 rfl,
   (transfer_fail_closed (fun _ => some 25) (fun _ _ => .ok true) 9 "TXN-W3" 5 10
      ⟨[⟨1, 10, 50, "NGN", "active", some "PH", 0, 0⟩], []⟩
      ⟨10, "25", "0000", none⟩).2.2.2.2.2.2
     25 ⟨1, 10, 50, "NGN", "active", some "PH", 0, 0⟩ "PH"
     ⟨1, 10, 50, "NGN", "active", some "PH", 0, 0⟩
     rfl (by norm_num) rfl rfl rfl (by norm_num) rfl rfl⟩

/-- C6 counterexample: a transfer with a positive amount and correct PIN from a
suspended sender whose balance does not cover the amount is rejected as
`InsufficientFunds`, not `PaymentError` — the handler never checks the sender's
Active status before its sufficient-balance fast check. -/
theorem inactive_sender_yields_insufficient_funds :
    create_transfer (fun _ => some 100) (fun _ _ => .ok true) 9 "TXN-C" 5 10
      ⟨[⟨1, 10, 0, "NGN", "suspended", some "PH", 0, 0⟩,
        ⟨2, 20, 0, "NGN", "active", none, 0, 0⟩], []⟩
      ⟨20, "100", "1234", none⟩ = .error .InsufficientFunds ∧
    (.error .InsufficientFunds : Except AppError (LedgerState × Transaction)) ≠
      .error (.PaymentError "Sender wallet is not active") := by
  exact ⟨rfl, by simp⟩

/-- C6 amended: the handler has no pre-lock sender-Active check; the Active status of
the sender is checked only inside the locked phase of `process_transfer`, after the
sufficient-balance fast check. Hence a not-Active sender yields `InsufficientFunds`
when the balance does not cover the amount, and
`PaymentError "Sender wallet is not active"` when it does. -/
theorem sender_active_checked_in_lock_phase
    (p : String → Option ℚ) (v : String → String → Except String Bool)
    (ftx : Nat) (fref : String) (now uid : Nat) (st : LedgerState)
    (payload : TransferRequest) (amt : ℚ) (row rrow : WalletModel) (hh : String)
    (hp : p payload.amount = some amt) (ha : 0 < amt)
    (hrow : st.findWalletRowByUser uid = some row)
    (hpin : row.pin_hash = some hh) (hv : v payload.pin hh = .ok true)
    (hnact : row.status ≠ "active")
    (hrecv : st.findWalletRowByUser payload.receiver_user_id = some rrow)
    (hne : row.id ≠ rrow.id)
    (hdesc : payload.description = none)
    (hbyid : st.findWalletRow row.id = some row) :
    (row.balance < amt →
      create_transfer p v ftx fref now uid st payload = .error .InsufficientFunds) ∧
    (amt ≤ row.balance →
      create_transfer p v ftx fref now uid st payload =
        .error (.PaymentError "Sender wallet is not active")) := by
  constructor
  · intro hbal
    simp [create_transfer, find_by_user_id, wallet_to_domain, Wallet.verify_pin,
      Wallet.has_sufficient_balance, hp, not_le.mpr ha, hrow, hpin, hv,
      not_le.mpr hbal]
  · intro hbal
    simp [create_transfer, find_by_user_id, wallet_to_domain, Wallet.verify_pin,
      Wallet.has_sufficient_balance, Transaction.new, Transaction.new.finishNew,
      process_transfer, hp, not_le.mpr ha, hrow, hpin, hv, ge_iff_le, hbal,
      hrecv, hne, hdesc, hbyid, hnact]

/-- Witness for C6 amended: both branches at concrete states — a suspended sender
with insufficient balance is rejected as InsufficientFunds, and with sufficient
balance as PaymentError. -/
theorem sender_active_checked_in_lock_phase_witness :
    (create_transfer (fun _ => some 100) (fun _ _ => .ok true) 9 "TXN-C2" 5 10
      ⟨[⟨1, 10, 0, "NGN", "suspended", some "PH", 0, 0⟩,
        ⟨2, 20, 0, "NGN", "active", none, 0, 0⟩], []⟩
      ⟨20, "100", "1234", none⟩ = .error .InsufficientFunds) ∧
    (create_transfer (fun _ => some 100) (fun _ _ => .ok true) 9 "TXN-C3" 5 10
      ⟨[⟨1, 10, 1000, "NGN", "suspended", some "PH", 0, 0⟩,
        ⟨2, 20, 0, "NGN", "active", none, 0, 0⟩], []⟩
      ⟨20, "100", "1234", none⟩ =
        .error (.PaymentError "Sender wallet is not active")) :=
  ⟨(sender_active_checked_in_lock_phase (fun _ => some 100) (fun _ _ => .ok true)
      9 "TXN-C2" 5 10
      ⟨[⟨1, 10, 0, "NGN", "suspended", some "PH", 0, 0⟩,
        ⟨2, 20, 0, "NGN", "active", none, 0, 0⟩], []⟩
      ⟨20, "100", "1234", none⟩ 100
      ⟨1, 10, 0, "NGN", "suspended", some "PH", 0, 0⟩
      ⟨2, 20, 0, "NGN", "active", none, 0, 0⟩ "PH"
      rfl (by norm_num) rfl rfl rfl (by decide) rfl (by decide) rfl rfl).1
      (by norm_num),
   (sender_active_checked_in_lock_phase (fun _ => some 100) (fun _ _ => .ok true)
      9 "TXN-C3" 5 10
      ⟨[⟨1, 10, 1000, "NGN", "suspended", some "PH", 0, 0⟩,
        ⟨2, 20, 0, "NGN", "active", none, 0, 0⟩], []⟩
      ⟨20, "100", "1234", none⟩ 100
      ⟨1, 10, 1000, "NGN", "suspended", some "PH", 0, 0⟩
      ⟨2, 20, 0, "NGN", "active", none, 0, 0⟩ "PH"
      rfl (by norm_num) rfl rfl rfl (by decide) rfl (by decide) rfl rfl).2
      (by norm_num)⟩

/-- Inversion of a successful `process_transfer`: the committed record is the input
transaction completed at `now`, it is appended to the transactions table, and the
table held no record with its reference before the insert. -/
theorem process_transfer_ok_inv (now : Nat) (st : LedgerState) (sid rid : Nat)
    (a : ℚ) (tx : Transaction) (st₁ : LedgerState) (tx₁ : Transaction)
    (h : process_transfer now st sid rid a tx = .ok (st₁, tx₁)) :
    tx₁ = { tx with transaction_type := .Transfer, status := .Completed, updated_at := now } ∧
    st₁.transactions = st.transactions ++ [tx₁] ∧
    st.transactions.any (fun t => t.reference = tx₁.reference) = false := by
  simp only [process_transfer] at h
  split at h
  · exact absurd h (by simp)
  · split at h
    · exact absurd h (by simp)
    · split at h
      · exact absurd h (by simp)
      · split at h
        · exact absurd h (by simp)
        · split at h
          · exact absurd h (by simp)
          · split at h
            · exact absurd h (by simp)
            · next heq =>
              cases h
              revert heq
              unfold LedgerState.insertTransaction
              split
              · intro heq
                exact absurd heq (by simp)
              · next hc =>
                intro heq
                cases heq
                exact ⟨rfl, rfl, by simpa using hc⟩

/-- C7 counterexample: a retry of the atomic phase carrying an already-committed
reference is rejected as a generic `DatabaseError` — `process_transfer` wraps the
failed INSERT through its explicit `map_err` — so it neither returns the original
record nor is rejected as `Conflict`. -/
theorem duplicate_reference_not_conflict :
    process_transfer 6
      ⟨[⟨1, 1, 50, "NGN", "active", none, 0, 5⟩,
        ⟨2, 2, 50, "NGN", "active", none, 0, 5⟩],
       [⟨7, some 1, some 2, .Transfer, 50, "NGN", .Completed, none, "TXN-R", 0, 5⟩]⟩
      1 2 10 ⟨8, some 1, some 2, .Transfer, 10, "NGN", .Pending, none, "TXN-R", 0, 0⟩ =
      .error (.DatabaseError "Failed to create transaction record: duplicate key value violates unique constraint transactions_reference_key") ∧
    (.error (.DatabaseError "Failed to create transaction record: duplicate key value violates unique constraint transactions_reference_key") :
        Except AppError (LedgerState × Transaction)) ≠
      .error (.Conflict "Database constraint violation: transactions_reference_key") := by
  exact ⟨rfl, by simp⟩

/-- C7 amended: once a transfer with reference `r` has committed, a second execution
of the atomic phase carrying the same reference can never commit — the uniqueness
constraint on `reference` forces the insert to fail and the unit of work to roll
back, so at most one debit/credit pair and one persisted record exist per
reference — but a retry that passes the wallet checks is rejected as a generic
`DatabaseError` (the INSERT failure goes through `process_transfer`'s explicit
`map_err`), not as `Conflict`, and the original record is not returned. -/
theorem transfer_reference_idempotent
    (now now' : Nat) (st st₁ : LedgerState) (sid rid sid' rid' : Nat) (a a' : ℚ)
    (tx tx₁ tx' : Transaction)
    (h1 : process_transfer now st sid rid a tx = .ok (st₁, tx₁))
    (h2 : tx'.reference = tx.reference) :
    (∀ res, process_transfer now' st₁ sid' rid' a' tx' ≠ .ok res) ∧
    (∀ srow rrow, st₁.findWalletRow sid' = some srow → srow.status = "active" →
      a' ≤ srow.balance → st₁.findWalletRow rid' = some rrow →
      rrow.status = "active" →
      process_transfer now' st₁ sid' rid' a' tx' =
        .error (.DatabaseError ("Failed to create transaction record: " ++
          "duplicate key value violates unique constraint transactions_reference_key"))) := by
  obtain ⟨htx₁, htrans, _⟩ := process_transfer_ok_inv now st sid rid a tx st₁ tx₁ h1
  have hmem : tx₁ ∈ st₁.transactions := by
    rw [htrans]
    simp
  have href : tx₁.reference = tx'.reference := by
    rw [htx₁, h2]
  have hany : st₁.transactions.any (fun t => t.reference = tx'.reference) = true := by
    rw [List.any_eq_true]
    exact ⟨tx₁, hmem, by simp [href]⟩
  constructor
  · rintro ⟨st₂, tx₂⟩ hok
    obtain ⟨_, _, hnone⟩ :=
      process_transfer_ok_inv now' st₁ sid' rid' a' tx' st₂ tx₂ hok
    have : st₁.transactions.any (fun t => t.reference = tx₂.reference) = true := by
      rw [List.any_eq_true]
      refine ⟨tx₁, hmem, ?_⟩
      simp only [decide_eq_true_eq]
      rw [href]
      simp_all
    simp_all
  · intro srow rrow hs hsact hsbal hr hract
    have hcredited :
        ((st₁.updateBalance sid' (-a') now').updateBalance rid' a' now').transactions
          = st₁.transactions := rfl
    simp [process_transfer, LedgerState.insertTransaction, hs, hsact,
      not_lt.mpr hsbal, hr, hract, hcredited, hany]

/-- Witness for C7 amended: a concrete committed transfer, then a retry of the atomic
phase with the same reference rejected as the `map_err`-wrapped DatabaseError. -/
theorem transfer_reference_idempotent_witness :
    process_transfer 6
      ⟨[⟨1, 1, 100 + -50, "NGN", "active", none, 0, 5⟩,
        ⟨2, 2, 0 + 50, "NGN", "active", none, 0, 5⟩],
       [⟨7, some 1, some 2, .Transfer, 50, "NGN", .Completed, none, "TXN-R", 0, 5⟩]⟩
      1 2 10 ⟨7, some 1, some 2, .Transfer, 50, "NGN", .Pending, none, "TXN-R", 0, 0⟩ =
      .error (.DatabaseError ("Failed to create transaction record: " ++
        "duplicate key value violates unique constraint transactions_reference_key")) :=
  (transfer_reference_idempotent 5 6
      ⟨[⟨1, 1, 100, "NGN", "active", none, 0, 0⟩,
        ⟨2, 2, 0, "NGN", "active", none, 0, 0⟩], []⟩
      ⟨[⟨1, 1, 100 + -50, "NGN", "active", none, 0, 5⟩,
        ⟨2, 2, 0 + 50, "NGN", "active", none, 0, 5⟩],
       [⟨7, some 1, some 2, .Transfer, 50, "NGN", .Completed, none, "TXN-R", 0, 5⟩]⟩
      1 2 1 2 50 10
      ⟨7, some 1, some 2, .Transfer, 50, "NGN", .Pending, none, "TXN-R", 0, 0⟩
      ⟨7, some 1, some 2, .Transfer, 50, "NGN", .Completed, none, "TXN-R", 0, 5⟩
      ⟨7, some 1, some 2, .Transfer, 50, "NGN", .Pending, none, "TXN-R", 0, 0⟩
      (by rfl) rfl).2
    ⟨1, 1, 100 + -50, "NGN", "active", none, 0, 5⟩
    ⟨2, 2, 0 + 50, "NGN", "active", none, 0, 5⟩
    rfl rfl (by norm_num) rfl rfl

end ViewSocial
